import Mathlib

/-!
Verification of the chrono CityBus vehicle-assembly wrapper, the SynChrono
highway demo tick loop, and the ChAssetLevel asset container, against the
system specification.  The embedded code is:

* src/src/chrono_models/vehicle/citybus/CityBus.cpp
* src/src/demos/synchrono/demo_highway/demo_SYN_highway.cpp
* src/src/chrono/assets/ChAssetLevel.h

Subsystems whose implementations live outside the sampled sources (powertrain
and wheeled-vehicle internals, the ACC driver, the MPI manager) are modelled
from the specification; each such definition says so in its doc comment.
Machine doubles are modelled as rationals.
-/

namespace Chrono

/-! ### Powertrain and vehicle subsystem states (black-box collaborators) -/

/-- State of the powertrain subsystem as observed by `CityBus::Synchronize`:
only its output torque is read there (`GetOutputTorque`).  The concrete
powertrain (`CityBus_SimpleMapPowertrain`) is an external collaborator. -/
structure Powertrain where
  outputTorque : ℚ
  deriving DecidableEq, Repr

/-- The accessor `ChPowertrain::GetOutputTorque`, a pure accessor per the
specification (section 4.2). -/
def Powertrain.GetOutputTorque (p : Powertrain) : ℚ := p.outputTorque

/-- Modelled from the spec: `PowertrainSubsystem.Synchronize(time, throttle,
driveshaftSpeed)` "recomputes output torque from a throttle/speed map"
(section 4.2); the map is data, passed here as `torqueMap`.  The implementing
code (`CityBus_SimpleMapPowertrain::Synchronize`) is not under src/. -/
def Powertrain.Synchronize (torqueMap : ℚ → ℚ → ℚ) (p : Powertrain)
    (_time throttle driveshaftSpeed : ℚ) : Powertrain :=
  { p with outputTorque := torqueMap throttle driveshaftSpeed }

/-- State of the wheeled vehicle as observed by `CityBus::Synchronize`: the
driveshaft speed it reads (`GetDriveshaftSpeed`) and the driver commands and
torque it pushes in. -/
structure Vehicle where
  driveshaftSpeed : ℚ
  appliedSteering : ℚ
  appliedBraking : ℚ
  appliedTorque : ℚ
  deriving DecidableEq, Repr

/-- The accessor `ChWheeledVehicle::GetDriveshaftSpeed`. -/
def Vehicle.GetDriveshaftSpeed (v : Vehicle) : ℚ := v.driveshaftSpeed

/-- Modelled from the spec: `VehicleAssembly.Synchronize` "pushes driver
commands and terrain queries into chassis/axle state; pure state update, no
integration" (section 4.1).  The implementing code
(`ChWheeledVehicle::Synchronize`) is not under src/; the terrain reference is
omitted since no embedded claim observes it. -/
def Vehicle.Synchronize (v : Vehicle) (_time steering braking torque : ℚ) : Vehicle :=
  { v with appliedSteering := steering, appliedBraking := braking, appliedTorque := torque }

/-! ### The CityBus assembly wrapper (CityBus.cpp) -/

/-- Combined state owned by the `CityBus` wrapper class: one powertrain and
one vehicle (`m_powertrain`, `m_vehicle`). -/
structure CityBusState where
  powertrain : Powertrain
  vehicle : Vehicle
  deriving DecidableEq, Repr

/-- The function `CityBus::Synchronize` (CityBus.cpp:155-165), line by line:
it first reads `powertrain_torque = m_powertrain->GetOutputTorque()` and
`driveshaft_speed = m_vehicle->GetDriveshaftSpeed()`, then re-synchronizes the
powertrain with the current driveshaft speed, and passes the previously read
(stale) torque to the vehicle. -/
def CityBus.Synchronize (torqueMap : ℚ → ℚ → ℚ) (s : CityBusState)
    (time steering braking throttle : ℚ) : CityBusState :=
  let powertrain_torque := Powertrain.GetOutputTorque s.powertrain
  let driveshaft_speed := Vehicle.GetDriveshaftSpeed s.vehicle
  { powertrain := Powertrain.Synchronize torqueMap s.powertrain time throttle driveshaft_speed,
    vehicle := Vehicle.Synchronize s.vehicle time steering braking powertrain_torque }

/-- The function `CityBus::Advance` (CityBus.cpp:168-171): it unconditionally
calls `m_powertrain->Advance(step)` then `m_vehicle->Advance(step)`.  The
subsystem integrators are black-box collaborators, passed as `ptAdvance` and
`vehAdvance`. -/
def CityBus.Advance (ptAdvance : Powertrain → ℚ → Powertrain)
    (vehAdvance : Vehicle → ℚ → Vehicle) (s : CityBusState) (step : ℚ) : CityBusState :=
  { powertrain := ptAdvance s.powertrain step, vehicle := vehAdvance s.vehicle step }

/-- Driver inputs for one tick of the assembly. -/
structure DriverInput where
  time : ℚ
  steering : ℚ
  braking : ℚ
  throttle : ℚ
  step : ℚ
  deriving DecidableEq, Repr

/-- One full tick of the assembly: `CityBus::Synchronize` followed by
`CityBus::Advance`, the per-tick call order of section 4.1. -/
def CityBus.tick (torqueMap : ℚ → ℚ → ℚ) (ptAdvance : Powertrain → ℚ → Powertrain)
    (vehAdvance : Vehicle → ℚ → Vehicle) (s : CityBusState) (i : DriverInput) : CityBusState :=
  CityBus.Advance ptAdvance vehAdvance
    (CityBus.Synchronize torqueMap s i.time i.steering i.braking i.throttle) i.step

/-- The function `CityBus::Advance` wrapped in an error monad so that the
absence of any error path is expressible: the C++ function returns void,
keeps no record of whether `Synchronize` was called in the current tick (no
such flag exists in the class), and unconditionally advances both subsystems
(CityBus.cpp:168-171).  The `_syncedThisTick` argument is ghost
instrumentation recording whether `Synchronize` preceded this call in the
same tick; the code has nothing that could depend on it. -/
def CityBus.AdvanceChecked (ptAdvance : Powertrain → ℚ → Powertrain)
    (vehAdvance : Vehicle → ℚ → Vehicle) (s : CityBusState) (step : ℚ)
    (_syncedThisTick : Bool) : Except String CityBusState :=
  Except.ok (CityBus.Advance ptAdvance vehAdvance s step)

/-! ### Step-size configuration (CityBus::Initialize) -/

/-- The step-size configuration fields of the `CityBus` class; both
constructors (CityBus.cpp:31-59) initialize `m_vehicle_step_size` and
`m_tire_step_size` to -1, the "unset" sentinel. -/
structure CityBusConfig where
  vehicle_step_size : ℚ
  tire_step_size : ℚ
  deriving DecidableEq, Repr

/-- The constructor defaults of CityBus.cpp:39-40 and 54-55. -/
def CityBusConfig.ctor : CityBusConfig := ⟨-1, -1⟩

/-- Effective step sizes of the subsystems after `CityBus::Initialize`. -/
structure StepSizes where
  vehicleStep : ℚ
  tireSteps : List ℚ
  deriving DecidableEq, Repr

/-- The spec-side description of step-size application: an explicitly
configured value is used only when it is strictly positive, otherwise the
subsystem keeps the engine-wide base step. -/
def effectiveStep (configured base : ℚ) : ℚ :=
  if configured > 0 then configured else base

/-- The step-size application performed by `CityBus::Initialize`
(CityBus.cpp:84-86 for the vehicle, 137-142 for the four tires), wrapped in
an error monad so that the absence of a failure path is expressible: the code
calls `SetStepsize` only when the configured value is > 0, otherwise leaves
each subsystem at its engine-wide base step (`base`), and never signals any
error.  The base step itself lives in `ChVehicle`/`ChTire` outside src/; per
the spec both "default to an engine-wide base step when unset". -/
def CityBus.InitializeStepSizes (base : ℚ) (c : CityBusConfig) : Except String StepSizes :=
  Except.ok
    { vehicleStep := if c.vehicle_step_size > 0 then c.vehicle_step_size else base,
      tireSteps := List.replicate 4 (if c.tire_step_size > 0 then c.tire_step_size else base) }

/-! ### Tire creation and total mass (CityBus::Initialize, CityBus::GetTotalMass) -/

/-- The tire model selector `TireModelType`, restricted to the cases
distinguished by `CityBus::Initialize` (CityBus.cpp:98-135); `other` stands
for any value reaching the default branch. -/
inductive TireModelType
  | RIGID
  | RIGID_MESH
  | TMEASY
  | other
  deriving DecidableEq, Repr

/-- Mass-related state of an initialized `CityBus`: the vehicle mass reported
by `GetVehicleMass`, the masses of the tires created by `Initialize`, and the
member `m_tire_mass`. -/
structure CityBusMasses where
  vehicleMass : ℚ
  tireMasses : List ℚ
  tire_mass : ℚ
  deriving DecidableEq, Repr

/-- Tire creation in `CityBus::Initialize` (CityBus.cpp:98-135): for
RIGID/RIGID_MESH four `CityBus_RigidTire`s are created, for TMEASY four
`CityBus_TMeasyTire`s; the four tires of a branch are built identically, so
they report the same mass (`rigidMass` resp. `tmeasyMass`, data of the
external tire models), and `m_tire_mass` is set to the FL tire's
`ReportMass()`.  The default branch creates no tires and leaves `m_tire_mass`
untouched. -/
def CityBus.InitializeTires (rigidMass tmeasyMass : ℚ) (t : TireModelType)
    (s : CityBusMasses) : CityBusMasses :=
  match t with
  | TireModelType.RIGID =>
      { s with tireMasses := List.replicate 4 rigidMass, tire_mass := rigidMass }
  | TireModelType.RIGID_MESH =>
      { s with tireMasses := List.replicate 4 rigidMass, tire_mass := rigidMass }
  | TireModelType.TMEASY =>
      { s with tireMasses := List.replicate 4 tmeasyMass, tire_mass := tmeasyMass }
  | TireModelType.other => s

/-- The function `CityBus::GetTotalMass` (CityBus.cpp:174-176):
`m_vehicle->GetVehicleMass() + 4 * m_tire_mass`, a const member computing a
value from the state without modifying it. -/
def CityBus.GetTotalMass (s : CityBusMasses) : ℚ := s.vehicleMass + 4 * s.tire_mass

/-! ### Multi-rate tire sub-stepping (VehicleAssembly.Advance) -/

/-- Modelled from the spec: the tire sub-stepping loop of
`VehicleAssembly.Advance` (section 4.1), which "integrates each tire
subsystem over `outerStep` using `ceil(outerStep / tireStep)` equal sub-steps
(last sub-step may be shorter to land exactly on `outerStep`)"; the
implementing loop (`ChTire::Advance`) is not under src/.  `f` is the
black-box single-sub-step tire integrator, `h` the tire step size, the `Nat`
argument the count of remaining sub-steps, and the final argument the
remaining time. -/
def subAdvance {σ : Type} (f : σ → ℚ → σ) (h : ℚ) : Nat → σ → ℚ → σ
  | 0, s, _ => s
  | n + 1, s, rem => if rem ≤ h then f s rem else subAdvance f h n (f s h) (rem - h)

/-- Modelled from the spec: one tire integration over `outer`, using
`ceil(outer / h)` sub-steps of size `h` (the last possibly shorter). -/
def tireAdvance {σ : Type} (f : σ → ℚ → σ) (h : ℚ) (s : σ) (outer : ℚ) : σ :=
  subAdvance f h (Int.toNat ⌈outer / h⌉) s outer

/-- Assembly state for the multi-rate integration claims: one powertrain
state and the list of wheel (tire) states. -/
structure AssemblyState (π τ : Type) where
  powertrain : π
  tires : List τ

/-- Modelled from the spec: `VehicleAssembly.Advance(outerStep)` "integrates
powertrain once over `outerStep`, then integrates each tire subsystem over
`outerStep`" with sub-stepping (section 4.1); dispatched from
`CityBus::Advance` (CityBus.cpp:168-171), the subsystem internals are not
under src/. -/
def Assembly.Advance {π τ : Type} (pAdv : π → ℚ → π) (tAdv : τ → ℚ → τ) (h : ℚ)
    (s : AssemblyState π τ) (outer : ℚ) : AssemblyState π τ :=
  { powertrain := pAdv s.powertrain outer,
    tires := s.tires.map (fun t => tireAdvance tAdv h t outer) }

/-! ### ACC path-follower driver (ChMulPathFollowerACCDriver) -/

/-- Memory of one closed-loop PID controller: the running error integral and
the previous error (derivative memory). -/
structure PIDMemory where
  errI : ℚ
  errPrev : ℚ
  deriving DecidableEq, Repr

/-- Initial (reset) PID memory. -/
def PIDMemory.init : PIDMemory := ⟨0, 0⟩

/-- Gains of one PID loop. -/
structure PIDGains where
  Kp : ℚ
  Ki : ℚ
  Kd : ℚ
  deriving DecidableEq, Repr

/-- Modelled from the spec: one PID evaluation for the controllers of section
4.3 (a scalar speed controller and a lateral steering controller, each with
gains Kp, Ki, Kd); returns the raw control output and the updated memory.
The implementing code (`ChSpeedController` / `ChPathSteeringController`) is
not under src/. -/
def pidEval (g : PIDGains) (m : PIDMemory) (e dt : ℚ) : ℚ × PIDMemory :=
  let errI := m.errI + e * dt
  (g.Kp * e + g.Ki * errI + g.Kd * ((e - m.errPrev) / dt), ⟨errI, e⟩)

/-- State of the multi-path ACC driver used by the highway demo: the indexed
path list (only its length matters to the embedded claims), the active path
index, and the two independent controllers of section 4.3. -/
structure ChMulPathFollowerACCDriver where
  pathCount : Nat
  activePath : Nat
  steeringGains : PIDGains
  speedGains : PIDGains
  steeringMem : PIDMemory
  speedMem : PIDMemory
  deriving DecidableEq, Repr

/-- Modelled from the spec: `ChMulPathFollowerACCDriver::changePath(index)`
(called at demo_SYN_highway.cpp:254-255; its implementation is not under
src/): it "validates `0 <= index < pathCount`; fails with an out-of-range
error otherwise; is idempotent if called with the already-active index", and
"on switch, reset only the steering controller's integral/derivative memory,
preserve speed-controller memory" (section 4.3).  An error return leaves the
caller's driver state untouched. -/
def ChMulPathFollowerACCDriver.changePath (d : ChMulPathFollowerACCDriver)
    (index : Int) : Except String ChMulPathFollowerACCDriver :=
  if 0 ≤ index ∧ index < (d.pathCount : Int) then
    if index.toNat = d.activePath then Except.ok d
    else Except.ok { d with activePath := index.toNat, steeringMem := PIDMemory.init }
  else Except.error "changePath: path index out of range"

/-- Clamp of a rational to an interval, as used for the driver commands. -/
def clampQ (x lo hi : ℚ) : ℚ := max lo (min x hi)

/-- Driver command triple produced each tick. -/
structure DriverCommands where
  steering : ℚ
  throttle : ℚ
  braking : ℚ
  deriving DecidableEq, Repr

/-- Modelled from the spec: the per-tick command computation of
`PathFollowerController.Synchronize` (section 4.3): the steering command is
the steering PID output clamped to [-1, 1]; the speed-loop output "maps to
throttle (positive) or braking (negative), never both nonzero
simultaneously, clamped to [0,1] each".  `steeringErr` and `speedErr` are the
signed errors produced by the path projection and the speed/car-following
law, both external to the embedded claims; the implementation
(`ChPathFollowerACCDriver::Synchronize`/`Advance`) is not under src/. -/
def ChMulPathFollowerACCDriver.Synchronize (d : ChMulPathFollowerACCDriver)
    (steeringErr speedErr dt : ℚ) : DriverCommands × ChMulPathFollowerACCDriver :=
  let sp := pidEval d.steeringGains d.steeringMem steeringErr dt
  let vp := pidEval d.speedGains d.speedMem speedErr dt
  ({ steering := clampQ sp.1 (-1) 1,
     throttle := if 0 ≤ vp.1 then clampQ vp.1 0 1 else 0,
     braking := if 0 ≤ vp.1 then 0 else clampQ (-vp.1) 0 1 },
   { d with steeringMem := sp.2, speedMem := vp.2 })

/-- The sequence of steering commands produced by feeding the driver a
sequence of (steering error, speed error, dt) triples, one per tick. -/
def steeringTrace (d : ChMulPathFollowerACCDriver) :
    List (ℚ × ℚ × ℚ) → List ℚ
  | [] => []
  | e :: rest =>
      let r := ChMulPathFollowerACCDriver.Synchronize d e.1 e.2.1 e.2.2
      r.1.steering :: steeringTrace r.2 rest

/-- A fresh controller with the same paths and gains as `d` but both PID
memories in their initial state. -/
def ChMulPathFollowerACCDriver.fresh (d : ChMulPathFollowerACCDriver) :
    ChMulPathFollowerACCDriver :=
  { d with steeringMem := PIDMemory.init, speedMem := PIDMemory.init }

/-! ### The highway demo tick loop (demo_SYN_highway.cpp:233-258) -/

/-- Phases observable in one iteration of the demo simulation loop. -/
inductive SynPhase
  | advance
  | exchange
  | changePathEvent
  | update
  deriving DecidableEq, Repr

/-- State of one participant of the highway demo as far as the loop at
demo_SYN_highway.cpp:233-258 observes it: its MPI rank, the system simulation
time, the per-tick heartbeat, the multi-path driver's active path index, and
the manager's `IsOk()` flag. -/
structure HighwaySim where
  rank : Int
  time : ℚ
  heartbeat : ℚ
  activePath : Nat
  ok : Bool
  deriving DecidableEq, Repr

/-- Modelled from the spec for the manager internals (`SynMPIManager` is not
under src/): `Advance` moves every agent forward by one heartbeat of
simulation time ("all agents advance the same amount of simulation time per
tick"). -/
def HighwaySim.advancePhase (s : HighwaySim) : HighwaySim :=
  { s with time := s.time + s.heartbeat }

/-- Modelled from the spec: `Synchronize` is the all-to-all state exchange;
it touches none of the fields observed here. -/
def HighwaySim.exchangePhase (s : HighwaySim) : HighwaySim := s

/-- Modelled from the spec: `Update` applies the exchanged state to the
remote proxies; it touches none of the fields observed here. -/
def HighwaySim.updatePhase (s : HighwaySim) : HighwaySim := s

/-- The trigger condition at demo_SYN_highway.cpp:254:
`rank == 0 && std::abs(agent->GetSystem()->GetChTime() - 6) < 1e-2`. -/
def HighwaySim.pathTrigger (s : HighwaySim) : Bool :=
  decide (s.rank = 0 ∧ |s.time - 6| < 1 / 100)

/-- One iteration of the demo loop body (demo_SYN_highway.cpp:234-258):
`mpi_manager.Advance()`, then `mpi_manager.Synchronize()`, then — when the
time trigger holds — `changePath(1)` on the rank-0 driver, then
`mpi_manager.Update()`.  Returns the successor state and the list of phases
executed, in order. -/
def HighwaySim.tick (s : HighwaySim) : HighwaySim × List SynPhase :=
  let s1 := s.advancePhase
  let s2 := s1.exchangePhase
  let s3 := if s2.pathTrigger then { s2 with activePath := 1 } else s2
  (s3.updatePhase,
   [SynPhase.advance, SynPhase.exchange]
     ++ (if s2.pathTrigger then [SynPhase.changePathEvent] else [])
     ++ [SynPhase.update])

/-- The phase trace of the whole loop `while (mpi_manager.IsOk()) { ... }`
(demo_SYN_highway.cpp:234-258), run for at most `fuel` iterations: the loop
condition is checked at the top of every iteration (the tick boundary) and
the loop exits there once `IsOk()` is false. -/
def HighwaySim.runEvents : Nat → HighwaySim → List SynPhase
  | 0, _ => []
  | n + 1, s =>
      if s.ok then (HighwaySim.tick s).2 ++ HighwaySim.runEvents n (HighwaySim.tick s).1
      else []

/-! ### The asset container (ChAssetLevel.h) -/

/-- The class `ChAssetLevel` (ChAssetLevel.h:25-80): a frame (of opaque
content `φ`) and an ordered list of child assets.  A `std::shared_ptr` that
may be empty is modelled as `Option α`; the stored assets themselves are
non-null values of `α`. -/
structure ChAssetLevel (φ α : Type) where
  levelframe : φ
  assets : List α

/-- The function `ChAssetLevel::GetAssetN` (ChAssetLevel.h:43-49): returns
the stored asset when `num < assets.size()` and an empty shared pointer
(`none`) otherwise; it reads the list without modifying it. -/
def ChAssetLevel.GetAssetN {φ α : Type} (l : ChAssetLevel φ α) (num : Nat) : Option α :=
  if h : num < l.assets.length then some (l.assets.get ⟨num, h⟩) else none

/-- The function `ChAssetLevel::AddAsset` (ChAssetLevel.h:52):
`assets.push_back(masset)`. -/
def ChAssetLevel.AddAsset {φ α : Type} (l : ChAssetLevel φ α) (masset : α) :
    ChAssetLevel φ α :=
  { l with assets := l.assets ++ [masset] }

/-! ### Concrete instantiations used by witnesses and counterexamples -/

/-- A concrete torque map for witnesses: torque = throttle + 2 * speed. -/
def torqueMapTest : ℚ → ℚ → ℚ := fun throttle speed => throttle + 2 * speed

/-- A concrete powertrain integrator for witnesses; like
`ChSimpleMapPowertrain`, its `Advance` leaves the mapped torque unchanged. -/
def ptAdvanceTest : Powertrain → ℚ → Powertrain := fun p _ => p

/-- A concrete vehicle integrator for witnesses: the driveshaft accelerates
by the applied torque over the step. -/
def vehAdvanceTest : Vehicle → ℚ → Vehicle :=
  fun v h => { v with driveshaftSpeed := v.driveshaftSpeed + h * v.appliedTorque }

/-- A concrete assembly state for witnesses. -/
def cityBusTest : CityBusState :=
  { powertrain := { outputTorque := 7 },
    vehicle := { driveshaftSpeed := 3, appliedSteering := 0, appliedBraking := 0,
                 appliedTorque := 0 } }

/-- A concrete driver state for witnesses: two paths, path 0 active, nonzero
controller memories. -/
def driverTest : ChMulPathFollowerACCDriver :=
  { pathCount := 2, activePath := 0,
    steeringGains := ⟨2/5, 1/10, 1/5⟩, speedGains := ⟨2/5, 0, 0⟩,
    steeringMem := ⟨3, 4⟩, speedMem := ⟨5, 6⟩ }

/-- The driver state `driverTest` after switching to path 1: the steering
memory is reset, the speed memory preserved. -/
def driverTestSwitched : ChMulPathFollowerACCDriver :=
  { pathCount := 2, activePath := 1,
    steeringGains := ⟨2/5, 1/10, 1/5⟩, speedGains := ⟨2/5, 0, 0⟩,
    steeringMem := PIDMemory.init, speedMem := ⟨5, 6⟩ }

/-- A concrete single-sub-step integrator over scalar states for witnesses. -/
def qAdvTest : ℚ → ℚ → ℚ := fun x step => x + step

/-- A concrete assembly state (scalar powertrain, two scalar wheels) for
witnesses. -/
def assemblyTest : AssemblyState ℚ ℚ := ⟨0, [0, 5]⟩

/-- A concrete rank-0 participant state one heartbeat before simulation time
6, where the demo's path-switch trigger fires. -/
def highwayTest : HighwaySim := ⟨0, 59/10, 1/10, 0, true⟩

/-! ## Theorems -/

/-- C1: In the VehicleAssembly Synchronize/Advance pair, the torque applied
to the vehicle drivetrain in a tick is the powertrain output torque as it
stood at the previous tick: `CityBus::Synchronize` reads `GetOutputTorque()`
before re-synchronizing the powertrain with the current driveshaft speed and
passes that stale value to the vehicle, so for every tick the powertrain
torque is applied with exactly a one-step lag relative to the driveshaft
speed it was computed from.  The hypothesis `hpt` records that the powertrain
integrator does not alter the mapped output torque (the torque is recomputed
only in `Synchronize`, per spec section 4.2). -/
theorem cityBus_torque_one_step_lag
    (torqueMap : ℚ → ℚ → ℚ) (ptAdvance : Powertrain → ℚ → Powertrain)
    (vehAdvance : Vehicle → ℚ → Vehicle)
    (hpt : ∀ p h, (ptAdvance p h).outputTorque = p.outputTorque)
    (s : CityBusState) (i j : DriverInput) :
    (CityBus.Synchronize torqueMap s i.time i.steering i.braking i.throttle).vehicle.appliedTorque
        = s.powertrain.outputTorque
      ∧ (CityBus.Synchronize torqueMap s i.time i.steering i.braking i.throttle).powertrain.outputTorque
        = torqueMap i.throttle s.vehicle.driveshaftSpeed
      ∧ (CityBus.Synchronize torqueMap (CityBus.tick torqueMap ptAdvance vehAdvance s i)
            j.time j.steering j.braking j.throttle).vehicle.appliedTorque
        = torqueMap i.throttle s.vehicle.driveshaftSpeed := by
  refine ⟨rfl, rfl, ?_⟩
  simp [CityBus.tick, CityBus.Advance, CityBus.Synchronize, Vehicle.Synchronize,
    Powertrain.Synchronize, Powertrain.GetOutputTorque, Vehicle.GetDriveshaftSpeed, hpt]

/-- Witness for C1 at a concrete torque map, integrators, state and inputs. -/
theorem cityBus_torque_one_step_lag_witness :
    (CityBus.Synchronize torqueMapTest cityBusTest 0 0 0 1).vehicle.appliedTorque
        = cityBusTest.powertrain.outputTorque
      ∧ (CityBus.Synchronize torqueMapTest cityBusTest 0 0 0 1).powertrain.outputTorque
        = torqueMapTest 1 cityBusTest.vehicle.driveshaftSpeed
      ∧ (CityBus.Synchronize torqueMapTest
            (CityBus.tick torqueMapTest ptAdvanceTest vehAdvanceTest cityBusTest ⟨0, 0, 0, 1, 1⟩)
            1 0 0 2).vehicle.appliedTorque
        = torqueMapTest 1 cityBusTest.vehicle.driveshaftSpeed :=
  cityBus_torque_one_step_lag torqueMapTest ptAdvanceTest vehAdvanceTest
    (fun _ _ => rfl) cityBusTest ⟨0, 0, 0, 1, 1⟩ ⟨1, 0, 0, 2, 1⟩

/-- C2 counterexample: at a concrete state on which `Synchronize` was never
called in the current tick (ghost flag `false`), `CityBus::Advance` is not
rejected and not reported as an error: it returns normally and has advanced
the subsystems (the driveshaft speed changed), i.e. it silently executed. -/
theorem cityBus_advance_unsynchronized_counterexample :
    (CityBus.AdvanceChecked ptAdvanceTest vehAdvanceTest ⟨⟨7⟩, ⟨3, 0, 0, 5⟩⟩ 1 false).isOk
        = true
      ∧ CityBus.AdvanceChecked ptAdvanceTest vehAdvanceTest ⟨⟨7⟩, ⟨3, 0, 0, 5⟩⟩ 1 false
        = Except.ok ⟨⟨7⟩, ⟨8, 0, 0, 5⟩⟩
      ∧ (⟨⟨7⟩, ⟨3, 0, 0, 5⟩⟩ : CityBusState) ≠ ⟨⟨7⟩, ⟨8, 0, 0, 5⟩⟩ := by
  refine ⟨rfl, ?_, by decide⟩
  show Except.ok _ = _
  norm_num [CityBus.Advance, ptAdvanceTest, vehAdvanceTest]

/-- C2 amended: `CityBus::Advance` performs no precondition check at all — it
unconditionally advances the powertrain and then the vehicle over the given
step, signals no error, and its behavior is independent of whether
`Synchronize` was called earlier in the same tick. -/
theorem cityBus_advance_no_precondition_check
    (ptAdvance : Powertrain → ℚ → Powertrain) (vehAdvance : Vehicle → ℚ → Vehicle)
    (s : CityBusState) (step : ℚ) (syncedThisTick : Bool) :
    CityBus.AdvanceChecked ptAdvance vehAdvance s step syncedThisTick
        = Except.ok { powertrain := ptAdvance s.powertrain step,
                      vehicle := vehAdvance s.vehicle step }
      ∧ CityBus.AdvanceChecked ptAdvance vehAdvance s step syncedThisTick
        = CityBus.AdvanceChecked ptAdvance vehAdvance s step true :=
  ⟨rfl, rfl⟩

/-- C3 counterexample: with the vehicle and tire step sizes explicitly set to
-5 (not strictly positive), `CityBus::Initialize` does not fail fast with a
configuration error: it returns normally and silently keeps the engine-wide
base step (here 1/1000) for the vehicle and all four tires. -/
theorem cityBus_step_size_counterexample :
    CityBus.InitializeStepSizes (1 / 1000) ⟨-5, -5⟩
        = Except.ok ⟨1 / 1000, List.replicate 4 (1 / 1000)⟩
      ∧ (CityBus.InitializeStepSizes (1 / 1000) ⟨-5, -5⟩).isOk = true := by
  constructor
  · show Except.ok _ = _
    norm_num [List.replicate]
  · rfl

/-- C3 amended: `CityBus::Initialize` applies a configured step size to the
vehicle and to every tire exactly when it is strictly positive and otherwise
silently keeps the engine-wide base step — including for the constructor's
unset sentinel -1 — and it never signals a step-size error. -/
theorem cityBus_step_size_applied_only_if_positive (base : ℚ) (c : CityBusConfig) :
    CityBus.InitializeStepSizes base c
        = Except.ok ⟨effectiveStep c.vehicle_step_size base,
                     List.replicate 4 (effectiveStep c.tire_step_size base)⟩
      ∧ CityBus.InitializeStepSizes base CityBusConfig.ctor
        = Except.ok ⟨base, List.replicate 4 base⟩ := by
  constructor
  · rfl
  · show Except.ok _ = _
    norm_num [CityBusConfig.ctor]

/-- C4: for every initialized vehicle assembly (any tire model actually
creating tires, i.e. not the default branch), `CityBus::GetTotalMass` equals
the vehicle mass plus the sum of the masses of the four created tires; it is
a pure accessor, computing this value from the state without modifying it. -/
theorem cityBus_total_mass_eq_vehicle_plus_tires
    (rigidMass tmeasyMass : ℚ) (t : TireModelType) (s : CityBusMasses)
    (ht : t ≠ TireModelType.other) :
    CityBus.GetTotalMass (CityBus.InitializeTires rigidMass tmeasyMass t s)
        = (CityBus.InitializeTires rigidMass tmeasyMass t s).vehicleMass
          + ((CityBus.InitializeTires rigidMass tmeasyMass t s).tireMasses).sum
      ∧ (CityBus.InitializeTires rigidMass tmeasyMass t s).tireMasses.length = 4 := by
  cases t with
  | RIGID =>
      refine ⟨?_, rfl⟩
      simp [CityBus.InitializeTires, CityBus.GetTotalMass, List.sum_replicate,
        nsmul_eq_mul]
      ring
  | RIGID_MESH =>
      refine ⟨?_, rfl⟩
      simp [CityBus.InitializeTires, CityBus.GetTotalMass, List.sum_replicate,
        nsmul_eq_mul]
      ring
  | TMEASY =>
      refine ⟨?_, rfl⟩
      simp [CityBus.InitializeTires, CityBus.GetTotalMass, List.sum_replicate,
        nsmul_eq_mul]
      ring
  | other => exact absurd rfl ht

/-- Witness for C4 with the TMeasy tire model at concrete masses. -/
theorem cityBus_total_mass_witness :
    TireModelType.TMEASY ≠ TireModelType.other
      ∧ (CityBus.GetTotalMass (CityBus.InitializeTires 100 80 TireModelType.TMEASY ⟨10000, [], 0⟩)
            = (CityBus.InitializeTires 100 80 TireModelType.TMEASY ⟨10000, [], 0⟩).vehicleMass
              + ((CityBus.InitializeTires 100 80 TireModelType.TMEASY ⟨10000, [], 0⟩).tireMasses).sum
          ∧ (CityBus.InitializeTires 100 80 TireModelType.TMEASY ⟨10000, [], 0⟩).tireMasses.length
            = 4) :=
  ⟨by decide,
   cityBus_total_mass_eq_vehicle_plus_tires 100 80 TireModelType.TMEASY ⟨10000, [], 0⟩
     (by decide)⟩

/-- Helper: advancing by a total time of exactly `k` equal sub-steps of size
`h > 0` is the `k`-fold iterate of the single-sub-step integrator. -/
theorem subAdvance_exact {σ : Type} (f : σ → ℚ → σ) (h : ℚ) (hh : 0 < h) :
    ∀ (k : Nat) (s : σ), subAdvance f h k s ((k : ℚ) * h) = (fun t => f t h)^[k] s := by
  intro k
  induction k with
  | zero => intro s; rfl
  | succ n ih =>
      intro s
      cases n with
      | zero => simp [subAdvance]
      | succ m =>
          have hm : (0 : ℚ) ≤ (m : ℚ) := Nat.cast_nonneg m
          have hcond : ¬ (((m + 1 + 1 : ℕ) : ℚ) * h ≤ h) := by push_cast; nlinarith
          have hrem : ((m + 1 + 1 : ℕ) : ℚ) * h - h = ((m + 1 : ℕ) : ℚ) * h := by
            push_cast; ring
          rw [subAdvance, if_neg hcond, hrem, ih (f s h)]
          exact (Function.iterate_succ_apply (fun t => f t h) (m + 1) s).symm

/-- Helper: when the outer step is exactly `k` tire steps, `tireAdvance` is
the `k`-fold iterate of the single-sub-step integrator. -/
theorem tireAdvance_exact {σ : Type} (f : σ → ℚ → σ) (h : ℚ) (hh : 0 < h)
    (k : Nat) (s : σ) :
    tireAdvance f h s ((k : ℚ) * h) = (fun t => f t h)^[k] s := by
  have hne : h ≠ 0 := ne_of_gt hh
  have hceil : Int.toNat ⌈((k : ℚ) * h) / h⌉ = k := by
    rw [mul_div_cancel_right₀ _ hne]
    simp
  rw [tireAdvance, hceil]
  exact subAdvance_exact f h hh k s

/-- C5: sub-stepping consistency.  For every positive tire step `h` that
divides the vehicle step (`vStep = k * h`), calling `Advance` `N` times with
step `vStep` produces the same final wheel state as a single `Advance` call
with `outerStep = N * vStep` and the tire step unchanged, where each
`Advance` integrates the powertrain once over the outer step and each tire
subsystem over `ceil(outerStep / tireStep)` sub-steps. -/
theorem assembly_substepping_consistency {π τ : Type}
    (pAdv : π → ℚ → π) (tAdv : τ → ℚ → τ) (h vStep : ℚ) (k N : Nat)
    (s : AssemblyState π τ) (hh : 0 < h) (hdiv : vStep = (k : ℚ) * h) :
    ((fun st => Assembly.Advance pAdv tAdv h st vStep)^[N] s).tires
      = (Assembly.Advance pAdv tAdv h s ((N : ℚ) * vStep)).tires := by
  have hone : (fun t : τ => tireAdvance tAdv h t vStep) = (fun u => tAdv u h)^[k] := by
    funext t
    rw [hdiv]
    exact tireAdvance_exact tAdv h hh k t
  have hiter : ∀ (M : Nat) (w : AssemblyState π τ),
      ((fun st => Assembly.Advance pAdv tAdv h st vStep)^[M] w).tires
        = w.tires.map ((fun u => tAdv u h)^[M * k]) := by
    intro M
    induction M with
    | zero => intro w; simp
    | succ n ih =>
        intro w
        rw [Function.iterate_succ_apply']
        show ((fun st => Assembly.Advance pAdv tAdv h st vStep)^[n] w).tires.map
            (fun t => tireAdvance tAdv h t vStep) = _
        rw [ih w, hone, List.map_map]
        apply List.map_congr_left
        intro t _
        show ((fun u => tAdv u h)^[k]) (((fun u => tAdv u h)^[n * k]) t) = _
        rw [← Function.iterate_add_apply,
          show k + n * k = (n + 1) * k from by ring]
  rw [hiter N s]
  show _ = s.tires.map (fun t => tireAdvance tAdv h t ((N : ℚ) * vStep))
  have houter : (N : ℚ) * vStep = ((N * k : ℕ) : ℚ) * h := by
    rw [hdiv]; push_cast; ring
  apply List.map_congr_left
  intro t _
  rw [houter, tireAdvance_exact tAdv h hh (N * k) t]

/-- Witness for C5: tire step 1/2 dividing vehicle step 1 (k = 2), two outer
calls (N = 2), concrete scalar integrators and state. -/
theorem assembly_substepping_consistency_witness :
    (0 : ℚ) < 1 / 2
      ∧ (1 : ℚ) = ((2 : ℕ) : ℚ) * (1 / 2)
      ∧ ((fun st => Assembly.Advance qAdvTest qAdvTest (1 / 2) st 1)^[2] assemblyTest).tires
        = (Assembly.Advance qAdvTest qAdvTest (1 / 2) assemblyTest (((2 : ℕ) : ℚ) * 1)).tires :=
  ⟨by norm_num, by norm_num,
   assembly_substepping_consistency qAdvTest qAdvTest (1 / 2) 1 2 2 assemblyTest
     (by norm_num) (by norm_num)⟩

/-- C6: `changePath(index)` succeeds exactly when `0 <= index < pathCount`;
for every out-of-range index it fails with an out-of-range error, producing
no new driver state (the caller's active-path and controller state are left
untouched); calling it with the already-active index returns the driver
unchanged (idempotent). -/
theorem changePath_validates_range (d : ChMulPathFollowerACCDriver) (index : Int) :
    (¬ (0 ≤ index ∧ index < (d.pathCount : Int)) →
        ChMulPathFollowerACCDriver.changePath d index
          = Except.error "changePath: path index out of range")
      ∧ ((0 ≤ index ∧ index < (d.pathCount : Int)) →
        (ChMulPathFollowerACCDriver.changePath d index).isOk = true)
      ∧ ((0 ≤ index ∧ index < (d.pathCount : Int)) → index.toNat = d.activePath →
        ChMulPathFollowerACCDriver.changePath d index = Except.ok d) := by
  refine ⟨?_, ?_, ?_⟩
  · intro h
    rw [ChMulPathFollowerACCDriver.changePath, if_neg h]
  · intro h
    rw [ChMulPathFollowerACCDriver.changePath, if_pos h]
    by_cases h2 : index.toNat = d.activePath
    · rw [if_pos h2]; rfl
    · rw [if_neg h2]; rfl
  · intro h h2
    rw [ChMulPathFollowerACCDriver.changePath, if_pos h, if_pos h2]

/-- Witness for C6: on a two-path driver, index 5 is rejected with the
out-of-range error and the already-active index 0 is accepted unchanged. -/
theorem changePath_validates_range_witness :
    ChMulPathFollowerACCDriver.changePath driverTest 5
        = Except.error "changePath: path index out of range"
      ∧ ChMulPathFollowerACCDriver.changePath driverTest 0 = Except.ok driverTest :=
  ⟨(changePath_validates_range driverTest 5).1 (by decide),
   (changePath_validates_range driverTest 0).2.2 (by decide) (by decide)⟩

/-- C7: after every driver `Synchronize`, the steering command lies in
[-1, 1], the throttle and braking commands each lie in [0, 1], and throttle
and braking are never both nonzero: out-of-range raw control values are
clamped and execution continues. -/
theorem driver_synchronize_commands_in_range (d : ChMulPathFollowerACCDriver)
    (steeringErr speedErr dt : ℚ) :
    -1 ≤ (ChMulPathFollowerACCDriver.Synchronize d steeringErr speedErr dt).1.steering
      ∧ (ChMulPathFollowerACCDriver.Synchronize d steeringErr speedErr dt).1.steering ≤ 1
      ∧ 0 ≤ (ChMulPathFollowerACCDriver.Synchronize d steeringErr speedErr dt).1.throttle
      ∧ (ChMulPathFollowerACCDriver.Synchronize d steeringErr speedErr dt).1.throttle ≤ 1
      ∧ 0 ≤ (ChMulPathFollowerACCDriver.Synchronize d steeringErr speedErr dt).1.braking
      ∧ (ChMulPathFollowerACCDriver.Synchronize d steeringErr speedErr dt).1.braking ≤ 1
      ∧ ((ChMulPathFollowerACCDriver.Synchronize d steeringErr speedErr dt).1.throttle = 0
         ∨ (ChMulPathFollowerACCDriver.Synchronize d steeringErr speedErr dt).1.braking = 0) := by
  have hlo : ∀ x lo hi : ℚ, lo ≤ clampQ x lo hi := fun x lo hi => le_max_left lo _
  have hhi : ∀ x lo hi : ℚ, lo ≤ hi → clampQ x lo hi ≤ hi := fun x lo hi h =>
    max_le h (min_le_right x hi)
  simp only [ChMulPathFollowerACCDriver.Synchronize]
  refine ⟨hlo _ _ _, hhi _ _ _ (by norm_num), ?_, ?_, ?_, ?_, ?_⟩ <;>
    split_ifs <;>
      simp [hlo, hhi, le_refl]

/-- Helper: the steering-command trace depends only on the steering gains and
the steering memory of the starting driver state. -/
theorem steeringTrace_congr (errs : List (ℚ × ℚ × ℚ)) :
    ∀ d₁ d₂ : ChMulPathFollowerACCDriver,
      d₁.steeringGains = d₂.steeringGains → d₁.steeringMem = d₂.steeringMem →
      steeringTrace d₁ errs = steeringTrace d₂ errs := by
  induction errs with
  | nil => intro d₁ d₂ _ _; rfl
  | cons e rest ih =>
      intro d₁ d₂ hg hm
      have hhead :
          (ChMulPathFollowerACCDriver.Synchronize d₁ e.1 e.2.1 e.2.2).1.steering
            = (ChMulPathFollowerACCDriver.Synchronize d₂ e.1 e.2.1 e.2.2).1.steering := by
        simp only [ChMulPathFollowerACCDriver.Synchronize, hg, hm]
      have hg' :
          (ChMulPathFollowerACCDriver.Synchronize d₁ e.1 e.2.1 e.2.2).2.steeringGains
            = (ChMulPathFollowerACCDriver.Synchronize d₂ e.1 e.2.1 e.2.2).2.steeringGains := by
        simp only [ChMulPathFollowerACCDriver.Synchronize]
        exact hg
      have hm' :
          (ChMulPathFollowerACCDriver.Synchronize d₁ e.1 e.2.1 e.2.2).2.steeringMem
            = (ChMulPathFollowerACCDriver.Synchronize d₂ e.1 e.2.1 e.2.2).2.steeringMem := by
        simp only [ChMulPathFollowerACCDriver.Synchronize, hg, hm]
      simp only [steeringTrace]
      rw [hhead, ih _ _ hg' hm']

/-- C8: on every actual path switch, exactly the steering controller's
integral/derivative memory is reset to its initial state while the speed
controller's memory (and all gains) are preserved unchanged; feeding an
identical error sequence after the switch produces the same steering output
sequence as a fresh controller. -/
theorem changePath_resets_only_steering_memory
    (d d' : ChMulPathFollowerACCDriver) (index : Int) (errs : List (ℚ × ℚ × ℚ))
    (hok : ChMulPathFollowerACCDriver.changePath d index = Except.ok d')
    (hswitch : index.toNat ≠ d.activePath) :
    d'.steeringMem = PIDMemory.init
      ∧ d'.speedMem = d.speedMem
      ∧ d'.speedGains = d.speedGains
      ∧ d'.steeringGains = d.steeringGains
      ∧ steeringTrace d' errs = steeringTrace (ChMulPathFollowerACCDriver.fresh d') errs := by
  by_cases hin : 0 ≤ index ∧ index < (d.pathCount : Int)
  · rw [ChMulPathFollowerACCDriver.changePath, if_pos hin, if_neg hswitch] at hok
    injection hok with hd'
    subst hd'
    exact ⟨rfl, rfl, rfl, rfl, steeringTrace_congr errs _ _ rfl rfl⟩
  · rw [ChMulPathFollowerACCDriver.changePath, if_neg hin] at hok
    exact absurd hok (by simp)

/-- Witness for C8: switching `driverTest` (active path 0, dirty memories) to
path 1 yields `driverTestSwitched`, with a one-element replay sequence. -/
theorem changePath_resets_only_steering_memory_witness :
    driverTestSwitched.steeringMem = PIDMemory.init
      ∧ driverTestSwitched.speedMem = driverTest.speedMem
      ∧ driverTestSwitched.speedGains = driverTest.speedGains
      ∧ driverTestSwitched.steeringGains = driverTest.steeringGains
      ∧ steeringTrace driverTestSwitched [(1, 2, 1)]
        = steeringTrace (ChMulPathFollowerACCDriver.fresh driverTestSwitched) [(1, 2, 1)] :=
  changePath_resets_only_steering_memory driverTest driverTestSwitched 1 [(1, 2, 1)]
    (by rfl) (by decide)

/-- C9 counterexample: in the tick in which the demo's trigger condition
holds (rank 0, simulation time reaching 6), the `changePath` request fires
strictly inside the tick — after the state-exchange phase and before the
Update phase — and the active path has already changed before Update runs.
It therefore does not take effect at a tick boundary. -/
theorem highway_changePath_mid_tick_counterexample :
    (HighwaySim.tick highwayTest).2
        = [SynPhase.advance, SynPhase.exchange, SynPhase.changePathEvent, SynPhase.update]
      ∧ (HighwaySim.tick highwayTest).1.activePath = 1 := by
  have htrig : (HighwaySim.advancePhase highwayTest).pathTrigger = true := by
    simp only [HighwaySim.advancePhase, HighwaySim.pathTrigger, highwayTest,
      decide_eq_true_eq]
    norm_num
  refine ⟨?_, ?_⟩
  · simp [HighwaySim.tick, HighwaySim.exchangePhase, htrig]
  · simp [HighwaySim.tick, HighwaySim.exchangePhase, HighwaySim.updatePhase, htrig]

/-- C9 amended: on every tick the demo loop executes the phases in the fixed
order Advance, then state exchange, then Update, and repeats this loop while
`IsOk()` holds, with termination honored at the top-of-loop check (the tick
boundary); the externally triggered `changePath`, however, takes effect
inside the tick of its trigger, between the exchange and Update phases. -/
theorem highway_loop_order (n : Nat) (s : HighwaySim) :
    HighwaySim.runEvents 0 s = []
      ∧ (s.ok = false → HighwaySim.runEvents (n + 1) s = [])
      ∧ (s.ok = true → HighwaySim.runEvents (n + 1) s
          = [SynPhase.advance, SynPhase.exchange]
            ++ (if (HighwaySim.advancePhase s).pathTrigger then [SynPhase.changePathEvent]
                else [])
            ++ [SynPhase.update]
            ++ HighwaySim.runEvents n (HighwaySim.tick s).1) := by
  refine ⟨rfl, ?_, ?_⟩
  · intro h
    simp [HighwaySim.runEvents, h]
  · intro h
    simp [HighwaySim.runEvents, h, HighwaySim.tick, HighwaySim.exchangePhase]

/-- Witness for C9 amended: one triggered tick of `highwayTest`, and the
immediate exit on a participant whose manager reports not-ok. -/
theorem highway_loop_order_witness :
    HighwaySim.runEvents (0 + 1) highwayTest
        = [SynPhase.advance, SynPhase.exchange]
          ++ (if (HighwaySim.advancePhase highwayTest).pathTrigger then [SynPhase.changePathEvent]
              else [])
          ++ [SynPhase.update]
          ++ HighwaySim.runEvents 0 (HighwaySim.tick highwayTest).1
      ∧ HighwaySim.runEvents (0 + 1) ⟨0, 0, 1/10, 0, false⟩ = [] :=
  ⟨(highway_loop_order 0 highwayTest).2.2 rfl,
   (highway_loop_order 0 ⟨0, 0, 1/10, 0, false⟩).2.1 rfl⟩

/-- Helper: `ChAssetLevel::GetAssetN` agrees with positional list lookup. -/
theorem getAssetN_eq_lookup {φ α : Type} (l : ChAssetLevel φ α) (num : Nat) :
    ChAssetLevel.GetAssetN l num = l.assets.get? num := by
  rw [ChAssetLevel.GetAssetN]
  by_cases h : num < l.assets.length
  · rw [dif_pos h, List.get?_eq_get h]
  · rw [dif_neg h, eq_comm, List.get?_eq_none]
    omega

/-- C10: `GetAssetN(num)` returns the stored asset at position `num` when
`num` is in range and an empty (`none`) shared pointer otherwise — it is a
total function, so out-of-range access never faults, and being a pure
function of the level it never mutates the asset list; `AddAsset` appends at
the end, leaving all previously stored assets and the level frame
unchanged. -/
theorem assetLevel_getAssetN_addAsset {φ α : Type} (l : ChAssetLevel φ α)
    (num : Nat) (a : α) :
    ChAssetLevel.GetAssetN l num = l.assets.get? num
      ∧ (l.assets.length ≤ num → ChAssetLevel.GetAssetN l num = none)
      ∧ (ChAssetLevel.AddAsset l a).levelframe = l.levelframe
      ∧ (ChAssetLevel.AddAsset l a).assets = l.assets ++ [a]
      ∧ ChAssetLevel.GetAssetN (ChAssetLevel.AddAsset l a) l.assets.length = some a
      ∧ (num < l.assets.length →
          ChAssetLevel.GetAssetN (ChAssetLevel.AddAsset l a) num
            = ChAssetLevel.GetAssetN l num) := by
  refine ⟨getAssetN_eq_lookup l num, ?_, rfl, rfl, ?_, ?_⟩
  · intro h
    rw [getAssetN_eq_lookup, List.get?_eq_none]
    exact h
  · rw [getAssetN_eq_lookup]
    exact List.get?_concat_length l.assets a
  · intro h
    rw [getAssetN_eq_lookup, getAssetN_eq_lookup]
    exact List.get?_append h

/-- Witness for C10 on a concrete two-asset level. -/
theorem assetLevel_getAssetN_addAsset_witness :
    ChAssetLevel.GetAssetN (⟨0, [10, 20]⟩ : ChAssetLevel ℚ ℕ) 5 = none
      ∧ ChAssetLevel.GetAssetN
          (ChAssetLevel.AddAsset (⟨0, [10, 20]⟩ : ChAssetLevel ℚ ℕ) 30) 0
        = ChAssetLevel.GetAssetN (⟨0, [10, 20]⟩ : ChAssetLevel ℚ ℕ) 0
      ∧ ChAssetLevel.GetAssetN
          (ChAssetLevel.AddAsset (⟨0, [10, 20]⟩ : ChAssetLevel ℚ ℕ) 30) 2 = some 30 :=
  ⟨(assetLevel_getAssetN_addAsset (⟨0, [10, 20]⟩ : ChAssetLevel ℚ ℕ) 5 30).2.1 (by decide),
   (assetLevel_getAssetN_addAsset (⟨0, [10, 20]⟩ : ChAssetLevel ℚ ℕ) 0 30).2.2.2.2.2
     (by decide),
   (assetLevel_getAssetN_addAsset (⟨0, [10, 20]⟩ : ChAssetLevel ℚ ℕ) 2 30).2.2.2.2.1⟩

end Chrono
